import Mathlib

/-!
Verification development for the queryweaver text-to-SQL pipeline.

This file gives a shallow embedding, in Lean 4, of the core query pipeline of
the repository: the LLM-response parser (`src/api/agents/utils.py`), the
analysis agent's post-processing (`src/api/agents/analysis_agent.py`), the SQL
healer (`src/api/agents/healer_agent.py`), the schema-retrieval engine
(`src/api/graph.py`) and the orchestrator (`src/api/core/text2sql.py`).

Conventions of the embedding:
* Python strings are Lean `String`s; the Python string primitives used by the
  source (`strip`, `split`, `upper`, slicing, `find`/`rfind`) are re-implemented
  below on `List Char` so that all definitions are executable and
  kernel-reducible.
* External collaborators (LLM completion, embedding provider, graph database,
  SQL execution, schema refresh, response formatting) are modelled as total
  oracle functions carried in an environment record; each oracle stands for one
  collaborator call site and returns a well-typed value.  SQL execution, which
  the source explicitly guards with try/except, returns `Except`.
* Python exceptions raised by the repository's own code on in-model data are
  modelled explicitly (as `Except` results or an `aborted` flag), never hidden.
* Python dictionaries produced by JSON parsing are modelled by `PyVal`/`PyDict`.
-/

/-! ## Python string primitives -/

/-- Opening curly brace character (written via its code point). -/
def lbrace : Char := Char.ofNat 123

/-- Closing curly brace character (written via its code point). -/
def rbrace : Char := Char.ofNat 125

/-- Python `str.strip()` on a character list: drop leading and trailing
whitespace. -/
def stripChars (l : List Char) : List Char :=
  ((l.dropWhile Char.isWhitespace).reverse.dropWhile Char.isWhitespace).reverse

/-- Python `str.strip()`. -/
def pyStrip (s : String) : String := String.mk (stripChars s.data)

/-- Python `str.upper()` (ASCII case mapping suffices for the SQL keywords the
source compares against). -/
def pyUpper (s : String) : String := String.mk (s.data.map Char.toUpper)

/-- Python `str.lower()`. -/
def pyLower (s : String) : String := String.mk (s.data.map Char.toLower)

/-- Python `str.split()` with no argument: split on runs of whitespace and
drop empty pieces. -/
def pySplitWs (s : String) : List String :=
  ((s.data.splitOnP Char.isWhitespace).filter (fun w => ¬ w.isEmpty)).map String.mk

/-- Python `s[:n]` for a nonnegative `n`. -/
def pyTake (s : String) (n : Nat) : String := String.mk (s.data.take n)

/-- Python slice `s[a:b]` with Python's negative-index and clamping rules. -/
def pySlice (s : String) (a b : Int) : String :=
  let n : Int := s.data.length
  let norm : Int → Nat := fun i => (min (if i < 0 then i + n else i) n).toNat
  String.mk ((s.data.drop (norm a)).take (norm b - norm a))

/-- Python `str.find(c)` for a single character: index of first occurrence, or
`-1`. -/
def pyFind (s : String) (c : Char) : Int :=
  match s.data.findIdx? (fun d => d = c) with
  | some i => (i : Int)
  | Option.none => -1

/-- Python `str.rfind(c)` for a single character: index of last occurrence, or
`-1`. -/
def pyRFind (s : String) (c : Char) : Int :=
  match s.data.reverse.findIdx? (fun d => d = c) with
  | some i => (s.data.length - 1 - i : Int)
  | Option.none => -1

/-- Helper for Python `sub in s`: does `p` occur as an infix of `l`? -/
def containsAux (p : List Char) : List Char → Bool
  | [] => p.isEmpty
  | c :: rest => p.isPrefixOf (c :: rest) || containsAux p rest

/-- Python `sub in s` on strings. -/
def pyContains (s sub : String) : Bool := containsAux sub.data s.data

/-- Python `s.startswith(p)`. -/
def pyStartsWith (s p : String) : Bool := p.data.isPrefixOf s.data

/-- Python `sep.join(parts)`. -/
def pyJoin (sep : String) : List String → String
  | [] => ""
  | [x] => x
  | x :: xs => x ++ sep ++ pyJoin sep xs

/-- Python `l[-n:]` for `n > 0`: the last `n` elements (the whole list when
`n ≥ len(l)`). -/
def pyTakeLast (n : Nat) (l : List String) : List String := l.drop (l.length - n)

/-! ## Python values (JSON-parsed data) -/

/-- A Python value as produced by `json.loads` (plus `None`).  Dictionaries are
association lists in insertion order, as Python dicts preserve insertion
order. -/
inductive PyVal where
  | str : String → PyVal
  | int : Int → PyVal
  | bool : Bool → PyVal
  | list : List PyVal → PyVal
  | dict : List (String × PyVal) → PyVal
  | none : PyVal

/-- A Python dictionary with string keys. -/
abbrev PyDict := List (String × PyVal)

/-- Python `d[k]` as an `Option` (a `KeyError` is `Option.none`). -/
def pyLookup (d : PyDict) (k : String) : Option PyVal :=
  match d with
  | [] => Option.none
  | (k', v) :: rest => if k' = k then some v else pyLookup rest k

/-- Python `d.get(k, default)`. -/
def pyGetD (d : PyDict) (k : String) (default : PyVal) : PyVal :=
  match pyLookup d k with
  | some v => v
  | Option.none => default

/-- Python `k in d`. -/
def pyHasKey (d : PyDict) (k : String) : Bool := (pyLookup d k).isSome

/-- Python `d[k] = v`: replace the value at an existing key in place (keys stay
in insertion order), or append a new binding. -/
def pySet (d : PyDict) (k : String) (v : PyVal) : PyDict :=
  match d with
  | [] => [(k, v)]
  | (k', v') :: rest => if k' = k then (k', v) :: rest else (k', v') :: pySet rest k v

/-- Python `str(v)` as used in the healer's feedback f-string.  For the string
case (the only case the source actually produces when the LLM answers with a
JSON object whose `sql_query` is a string) this is exact; container reprs are
abbreviated because the resulting text is only ever fed back into the LLM
oracle and no theorem below depends on it. -/
def pyStrOf : PyVal → String
  | PyVal.str s => s
  | PyVal.int n => toString n
  | PyVal.bool b => if b then "True" else "False"
  | PyVal.none => "None"
  | PyVal.list _ => "<list>"
  | PyVal.dict _ => "<dict>"

/-! ## `parse_response` (src/api/agents/utils.py, lines 21–74)

`json.loads` is the Python standard-library JSON parser, an external
collaborator of this code; it is modelled by an oracle
`jp : String → Except String PyDict` (`Except.error m` models a raised
`json.JSONDecodeError` with message `m`; every candidate string handed to it by
the source starts with a brace, so a successful parse is an object). -/

/-- Brace scanner of `parse_response` lines 36–49: collect the top-level
`\x7b...\x7d` blocks.  `depth` is an `Int` because the source decrements below
zero on stray closing braces; `cur` is `some b` exactly when `start_idx` is not
`None` in the source. -/
def scanBlocks : List Char → Int → Option (List Char) → List String → List String
  | [], _, _, acc => acc
  | c :: cs, depth, cur, acc =>
    if c = lbrace then
      let cur' := match cur with
        | Option.none => if depth = 0 then some [c] else Option.none
        | some b => some (b ++ [c])
      scanBlocks cs (depth + 1) cur' acc
    else if c = rbrace then
      let depth' := depth - 1
      match cur with
      | some b =>
        if depth' = 0 then scanBlocks cs depth' Option.none (acc ++ [String.mk (b ++ [c])])
        else scanBlocks cs depth' (some (b ++ [c])) acc
      | Option.none => scanBlocks cs depth' Option.none acc
    else
      match cur with
      | some b => scanBlocks cs depth (some (b ++ [c])) acc
      | Option.none => scanBlocks cs depth Option.none acc

/-- Loop of lines 52–59: try the blocks from last to first; return the first
one that parses and has both required fields, else fall through. -/
def tryBlocksRev (jp : String → Except String PyDict) : List String → Option PyDict
  | [] => Option.none
  | b :: rest =>
    match jp b with
    | Except.ok d =>
      if pyHasKey d "is_sql_translatable" && pyHasKey d "sql_query" then some d
      else tryBlocksRev jp rest
    | Except.error _ => tryBlocksRev jp rest

/-- Fallback dictionary of lines 69–74, returned when JSON parsing fails
altogether. -/
def fallbackDict (response errMsg : String) : PyDict :=
  [("is_sql_translatable", PyVal.bool false),
   ("confidence", PyVal.int 0),
   ("explanation", PyVal.str ("Failed to parse response: " ++ errMsg)),
   ("error", PyVal.str response)]

/-- Model of `parse_response` (utils.py lines 21–74). -/
def parse_response (jp : String → Except String PyDict) (response : String) : PyDict :=
  let blocks := scanBlocks response.data 0 Option.none []
  match tryBlocksRev jp blocks.reverse with
  | some d => d
  | Option.none =>
    let json_str := pySlice response (pyFind response lbrace) (pyRFind response rbrace + 1)
    match jp json_str with
    | Except.ok d => d
    | Except.error e => fallbackDict response e

/-! ## Analysis agent post-processing (src/api/agents/analysis_agent.py, lines 47–62)

`get_analysis` builds a prompt, calls the LLM, parses the response with
`parse_response`, and then post-processes the parsed dictionary: it flattens
list-valued `ambiguities` and `missing_information` into hyphen-bulleted
strings and finally appends `analysis["sql_query"]` to the message buffer.
All three dictionary subscripts are unguarded, so a missing key raises
`KeyError`; the post-processing is therefore modelled as `Except`. -/

/-- Python `item.replace("-", " ")` (single-character pattern, so character-wise
replacement is exact). -/
def replaceDash (s : String) : String :=
  String.mk (s.data.map (fun c => if c = '-' then ' ' else c))

/-- Flattening of one field (analysis_agent.py lines 49–53 resp. 54–60):
`analysis[key]` (a `KeyError` when absent), and when the value is a list,
`"- " + "- ".join([item.replace("-", " ") for item in value])` (an
`AttributeError` when a list item is not a string). -/
def flattenField (analysis : PyDict) (key : String) : Except String PyDict :=
  match pyLookup analysis key with
  | Option.none => Except.error ("KeyError: " ++ key)
  | some v =>
    match v with
    | PyVal.list items =>
      match items.mapM (fun it => match it with
        | PyVal.str s => Except.ok (replaceDash s)
        | _ => Except.error "AttributeError: replace") with
      | Except.ok strs => Except.ok (pySet analysis key (PyVal.str ("- " ++ pyJoin "- " strs)))
      | Except.error e => Except.error e
    | _ => Except.ok analysis

/-- Model of the post-parse section of `get_analysis` (analysis_agent.py lines
48–62): flatten `ambiguities`, flatten `missing_information`, then read
`analysis["sql_query"]` for the message buffer (line 61, again an unguarded
subscript). -/
def get_analysis_post (analysis : PyDict) : Except String PyDict :=
  match flattenField analysis "ambiguities" with
  | Except.error e => Except.error e
  | Except.ok a1 =>
    match flattenField a1 "missing_information" with
    | Except.error e => Except.error e
    | Except.ok a2 =>
      match pyLookup a2 "sql_query" with
      | Option.none => Except.error "KeyError: sql_query"
      | some _ => Except.ok a2

/-! ## HealerAgent (src/api/agents/healer_agent.py) -/

/-- The methods defined on `class HealerAgent` (healer_agent.py lines 18–328).
The class has no base class, so these are the only attributes an instance
resolves besides instance fields; in particular there is no `heal_query`
method. -/
def healerAgentMethods : List String :=
  ["__init__", "validate_sql_syntax", "_build_healing_prompt", "heal_and_execute",
   "_analyze_error"]

/-- Result of `validate_sql_syntax`. -/
structure ValidationResult where
  is_valid : Bool
  errors : List String
  warnings : List String
deriving Repr, DecidableEq

/-- Is a character a Python `\w` word character (for the `\b` boundaries of the
dangerous-operation regexes)? -/
def isWordChar (c : Char) : Bool := c.isAlphanum || c = '_'

/-- Does `w` occur at the head of `l` as a whole word (next character, if any,
is not a word character)? -/
def wordAtHead (w : List Char) (l : List Char) : Bool :=
  w.isPrefixOf l &&
    (match l.drop w.length with
     | [] => true
     | c :: _ => ¬ isWordChar c)

/-- Regex `\bTRUNCATE\b` on the uppercased query (healer_agent.py line 62):
scan for a whole-word occurrence.  `prevIsWord` tracks whether the previous
character was a word character (the left `\b`). -/
def hasWord (w : String) : List Char → Bool → Bool
  | [], _ => false
  | l@(c :: rest), prevIsWord =>
    (¬ prevIsWord && wordAtHead w.data l) || hasWord w rest (isWordChar c)

/-- Regex `\bDROP\s+TABLE\b` (healer_agent.py line 62): `DROP` as a whole word,
one or more whitespace characters, then `TABLE` as a whole word. -/
def hasDropTableAt (l : List Char) : Bool :=
  if "DROP".data.isPrefixOf l then
    let rest := l.drop 4
    match rest with
    | c :: _ =>
      c.isWhitespace && wordAtHead "TABLE".data (rest.dropWhile Char.isWhitespace)
    | [] => false
  else false

/-- Scanner for `\bDROP\s+TABLE\b`. -/
def hasDropTable : List Char → Bool → Bool
  | [], _ => false
  | l@(c :: rest), prevIsWord =>
    (¬ prevIsWord && hasDropTableAt l) || hasDropTable rest (isWordChar c)

/-- Regex `\bDELETE\s+FROM\s+\w+\s*;?\s*$` (healer_agent.py line 62), matched at
one position: `DELETE`, whitespace, `FROM`, whitespace, a word, optional
whitespace, optional semicolon, optional whitespace, end of string. -/
def deleteFromTailAt (l : List Char) : Bool :=
  if "DELETE".data.isPrefixOf l then
    match l.drop 6 with
    | c :: _ =>
      if c.isWhitespace then
        let afterWs := (l.drop 6).dropWhile Char.isWhitespace
        if "FROM".data.isPrefixOf afterWs then
          match afterWs.drop 4 with
          | d :: _ =>
            if d.isWhitespace then
              let name := ((afterWs.drop 4).dropWhile Char.isWhitespace).takeWhile isWordChar
              let tail := ((afterWs.drop 4).dropWhile Char.isWhitespace).dropWhile isWordChar
              let tail := tail.dropWhile Char.isWhitespace
              let tail := match tail with
                | ';' :: t => t.dropWhile Char.isWhitespace
                | t => t.dropWhile Char.isWhitespace
              ¬ name.isEmpty && tail.isEmpty
            else false
          | [] => false
        else false
      else false
    | [] => false
  else false

/-- Scanner for `\bDELETE\s+FROM\s+\w+\s*;?\s*$`. -/
def hasDeleteFromTail : List Char → Bool → Bool
  | [], _ => false
  | l@(c :: rest), prevIsWord =>
    (¬ prevIsWord && deleteFromTailAt l) || hasDeleteFromTail rest (isWordChar c)

/-- Dangerous-pattern warnings of healer_agent.py lines 60–66, in the source's
pattern order, with the source's literal warning texts. -/
def dangerousWarnings (queryUpper : String) : List String :=
  (if hasDropTable queryUpper.data false then
    ["Query contains potentially dangerous operation: \\bDROP\\s+TABLE\\b"] else []) ++
  (if hasWord "TRUNCATE" queryUpper.data false then
    ["Query contains potentially dangerous operation: \\bTRUNCATE\\b"] else []) ++
  (if hasDeleteFromTail queryUpper.data false then
    ["Query contains potentially dangerous operation: \\bDELETE\\s+FROM\\s+\\w+\\s*;?\\s*$"]
   else [])

/-- Parenthesis balance check of healer_agent.py lines 68–79: returns
`(brokeNegative, finalNonzero)`.  The source appends the same error message on
going negative (then breaks) and again after the loop whenever the counter is
nonzero, so a query that goes negative yields the message twice. -/
def parenScan : List Char → Int → Bool × Bool
  | [], count => (false, count ≠ 0)
  | c :: rest, count =>
    if c = '(' then parenScan rest (count + 1)
    else if c = ')' then
      let count' := count - 1
      if count' < 0 then (true, count' ≠ 0)
      else parenScan rest count'
    else parenScan rest count

/-- Model of `HealerAgent.validate_sql_syntax` (healer_agent.py lines 30–90). -/
def validate_sql_syntax (sql_query : String) : ValidationResult :=
  let query := pyStrip sql_query
  if query = "" then
    { is_valid := false, errors := ["Query is empty"], warnings := [] }
  else
    let query_upper := pyUpper query
    let kwErrors :=
      if ["SELECT", "INSERT", "UPDATE", "DELETE", "WITH", "CREATE"].any
          (fun kw => pyContains query_upper kw) then []
      else ["Query does not contain valid SQL keywords"]
    let warns1 := dangerousWarnings query_upper
    let (broke, finalNonzero) := parenScan query.data 0
    let parenErrors :=
      (if broke then ["Unbalanced parentheses in query"] else []) ++
      (if finalNonzero then ["Unbalanced parentheses in query"] else [])
    let warns2 :=
      if (pyStartsWith query_upper "SELECT" || pyContains query_upper "SELECT") &&
         (¬ pyContains query_upper "FROM" && ¬ pyContains query_upper "DUAL") then
        ["SELECT query missing FROM clause"]
      else []
    let errors := kwErrors ++ parenErrors
    { is_valid := errors.isEmpty, errors := errors, warnings := warns1 ++ warns2 }

/-- Model of `HealerAgent._analyze_error` (healer_agent.py lines 292–328):
substring checks on the lowercased error message produce targeted hint lines. -/
def analyzeError (error_message database_type : String) : String :=
  let el := pyLower error_message
  let hints : List String :=
    (if database_type = "sqlite" then
      (if pyContains el "near \"from\"" || pyContains el "syntax error" then
        ["⚠️  EXTRACT() is NOT supported in SQLite - use strftime() instead!",
         "   Example: strftime('%Y', date_column) for year"] else []) ++
      (if pyContains el "no such column" then
        ["⚠️  Column name doesn't exist - check spelling and case",
         "   SQLite is case-insensitive but the column must exist"] else []) ++
      (if pyContains el "no such table" then
        ["⚠️  Table name doesn't exist - check spelling"] else []) ++
      (if pyContains el "ambiguous column" then
        ["⚠️  Ambiguous column - use table alias: table.column or alias.column"] else [])
     else if database_type = "postgresql" then
      (if pyContains el "column" && pyContains el "does not exist" then
        ["⚠️  Column case mismatch - PostgreSQL is case-sensitive",
         "   Use double quotes for mixed-case: \"ColumnName\""] else []) ++
      (if pyContains el "relation" && pyContains el "does not exist" then
        ["⚠️  Table doesn't exist or case mismatch"] else [])
     else [])
  let hints :=
    if hints = [] then
      ["⚠️  Check syntax compatibility with " ++ pyUpper database_type,
       "⚠️  Verify column and table names exist"]
    else hints
  pyJoin "\n" hints

/-- Model of `HealerAgent._build_healing_prompt` (healer_agent.py lines
92–167).  The prompt's long literal instruction text is abridged to short
markers: the specification treats prompt text as a black-box LLM-call contract
(spec §1), the prompt is consumed only by the LLM oracle, and no theorem below
inspects it.  The dynamic parts (failed SQL, error message, question, database
description, error hints, dialect section selector) are all present. -/
def buildHealingPrompt
    (failed_sql error_message db_description question database_type : String) : String :=
  "SQL debugging expert prompt\nDATABASE TYPE: " ++ pyUpper database_type ++
  "\nFAILED SQL QUERY:\n" ++ failed_sql ++
  "\nEXECUTION ERROR:\n" ++ error_message ++ "\n" ++
  (if question ≠ "" then "ORIGINAL QUESTION: " ++ question else "") ++
  "\nDATABASE INFO: " ++ db_description ++
  "\nCOMMON ERROR PATTERNS:\n" ++ analyzeError error_message database_type ++
  "\nCRITICAL RULES FOR " ++ pyUpper database_type ++ ":\n" ++
  (if database_type = "sqlite" then "sqlite dialect rules\n"
   else if database_type = "postgresql" then "postgresql dialect rules\n"
   else "") ++
  "RESPONSE FORMAT (valid JSON only)"

/-- Feedback message of healer_agent.py lines 270–279, appended to the
transcript between failed attempts. -/
def healFeedback (healed_sql : PyVal) (error : String) : String :=
  "The healed query failed with error:\n\n```sql\n" ++ pyStrOf healed_sql ++
  "\n```\n\nERROR:\n" ++ error ++ "\n\nPlease fix this error."

/-- A chat message: role and content. -/
abbrev Msg := String × String

/-- Oracle environment for `heal_and_execute`: the LLM completion call (a
function of the transcript), the JSON parser used inside `parse_response`, and
the `execute_sql_func` callback passed in by the caller. -/
structure HealEnv where
  llm : List Msg → String
  jp : String → Except String PyDict
  exec : PyVal → Except String (List String)

/-- Result dictionary of `heal_and_execute` (healer_agent.py lines 196–201). -/
structure HealOut where
  success : Bool
  sql_query : PyVal
  query_results : Option (List String)
  attempts : Nat
  final_error : Option String

/-- Loop of `heal_and_execute` (healer_agent.py lines 225–289).  `fuel` is the
number of loop iterations remaining (`maxA - attempt`); the source's
`attempt + 1` is `maxA - fuel + 1`.  When `fuel` reaches `0` without the loop
having returned (only possible when `max_healing_attempts` is `0`), the
source's fallback return fires with the *original* SQL and error. -/
def healLoop (env : HealEnv) (maxA : Nat) (initial_sql initial_error : String) :
    Nat → List Msg → HealOut
  | 0, _ =>
    { success := false, sql_query := PyVal.str initial_sql,
      query_results := Option.none, attempts := maxA,
      final_error := some initial_error }
  | fuel + 1, messages =>
    let content := env.llm messages
    let messages := messages ++ [("assistant", content)]
    let result := parse_response env.jp content
    let healed_sql := pyGetD result "sql_query" (PyVal.str "")
    match env.exec healed_sql with
    | Except.ok rows =>
      { success := true, sql_query := healed_sql, query_results := some rows,
        attempts := maxA - fuel, final_error := Option.none }
    | Except.error e =>
      if fuel = 0 then
        { success := false, sql_query := healed_sql, query_results := Option.none,
          attempts := maxA - fuel, final_error := some e }
      else
        healLoop env maxA initial_sql initial_error fuel
          (messages ++ [("user", healFeedback healed_sql e)])

/-- Model of `HealerAgent.heal_and_execute` (healer_agent.py lines 169–289):
validate the initial SQL to enrich the error context, build the initial prompt
once, then run the bounded repair loop. -/
def heal_and_execute (env : HealEnv) (max_healing_attempts : Nat)
    (initial_sql initial_error db_description question database_type : String) : HealOut :=
  let v := validate_sql_syntax initial_sql
  let additional_context :=
    (if v.errors ≠ [] then "\nSyntax errors: " ++ pyJoin ", " v.errors else "") ++
    (if v.warnings ≠ [] then "\nWarnings: " ++ pyJoin ", " v.warnings else "")
  let enhanced_error := initial_error ++ additional_context
  let prompt :=
    buildHealingPrompt initial_sql enhanced_error db_description question database_type
  healLoop env max_healing_attempts initial_sql initial_error
    max_healing_attempts [("user", prompt)]

/-! ## Schema retrieval (src/api/graph.py) -/

/-- One retrieval result row `[table_name, description, foreign_keys, columns]`
as returned by the graph queries of graph.py (each `RETURN` clause yields a
4-tuple in this order; the columns entry is a list of per-column attribute
mappings). -/
structure FRow where
  name : String
  description : String
  fk : String
  cols : List (List (String × String))
deriving Repr, DecidableEq

/-- First-wins transformation applied when a row is kept (graph.py lines
378–380): `table_info[3] = [dict(od) for od in table_info[3]]` converts each
column mapping to a plain dict (content-preserving, hence the identity on the
modelled association lists) and `table_info[2] = "Foreign keys: " +
table_info[2]` prefixes the foreign-key string. -/
def keepRow (r : FRow) : FRow :=
  { r with cols := r.cols.map (fun od => od), fk := "Foreign keys: " ++ r.fk }

/-- Loop of `_get_unique_tables` (graph.py lines 372–383): `seen` is the key
set of the `unique_tables` dict; a row whose table name was already seen is
skipped, otherwise it is transformed and kept.  Insertion order of the Python
dict gives the output order `list(unique_tables.values())`. -/
def uniqueGo : List FRow → List String → List FRow
  | [], _ => []
  | r :: rs, seen =>
    if r.name ∈ seen then uniqueGo rs seen
    else keepRow r :: uniqueGo rs (r.name :: seen)

/-- Model of `_get_unique_tables` (graph.py lines 368–385).  The rows are
modelled as well-typed (`FRow`), so the source's per-row exception path (which
drops malformed rows) is not reachable. -/
def get_unique_tables (tables_list : List FRow) : List FRow :=
  uniqueGo tables_list []

/-- An embedding vector.  Orchestration never inspects vector contents, only
list structure, so the scalar type is immaterial. -/
abbrev Emb := List Int

/-- Oracle environment for `find` (graph.py lines 279–366): the
schema-description LLM call (already parsed into the `Descriptions` pydantic
model: table-description stubs and column-description stubs), the embedding
provider, and the four graph searches.  The per-embedding/per-name graph
queries of `_find_tables`, `_find_tables_by_columns` and `_find_tables_sphere`
are oracles on a single embedding resp. table name; `_find_connecting_tables`
issues one query over all pairs. -/
structure FindEnv where
  tablesDescs : List String
  columnsDescs : List String
  embed : List String → List Emb
  tableSearch : Emb → List FRow
  columnSearch : Emb → List FRow
  sphereQuery : String → List FRow
  connectorQuery : List (String × String) → List FRow

/-- Model of `_find_tables` (graph.py lines 105–138): one vector query per
embedding, results flattened in order. -/
def findTablesByEmb (env : FindEnv) (embeddings : List Emb) : List FRow :=
  (embeddings.map env.tableSearch).flatten

/-- Model of `_find_tables_by_columns` (graph.py lines 141–178). -/
def findTablesByColumns (env : FindEnv) (embeddings : List Emb) : List FRow :=
  (embeddings.map env.columnSearch).flatten

/-- Model of `_find_tables_sphere` (graph.py lines 181–216): one query per
table name, results flattened (failures degrade to `[]` inside the oracle). -/
def findTablesSphere (env : FindEnv) (tables : List String) : List FRow :=
  (tables.map env.sphereQuery).flatten

/-- Python `itertools.combinations(l, 2)` in order. -/
def combos2 : List String → List (String × String)
  | [] => []
  | x :: xs => xs.map (fun y => (x, y)) ++ combos2 xs

/-- Model of `_find_connecting_tables` (graph.py lines 219–276): no query at
all when there are no pairs, otherwise a single query over all pairs. -/
def findConnectingTables (env : FindEnv) (table_names : List String) : List FRow :=
  let pairs := combos2 table_names
  if pairs = [] then [] else env.connectorQuery pairs

/-- Which searches a `find` invocation ran, and the table names the secondary
searches were seeded with.  This is the effect trace of the orchestration: a
search "ran" exactly when the source appends / awaits the corresponding task. -/
structure FindTrace where
  tableSearchRan : Bool
  columnSearchRan : Bool
  sphereSeeds : List String
  sphereRan : Bool
  connectorRan : Bool
deriving Repr, DecidableEq

/-- Result of `find`: the combined deduplicated table list and the search
trace. -/
structure FindOut where
  result : List FRow
  trace : FindTrace
deriving Repr, DecidableEq

/-- Model of `find` (graph.py lines 279–366).  Faithful points to note:
* `descriptions_text` is the concatenation of table stubs then column stubs;
  if it is empty the function returns `[]` before any search (line 326–327).
* The embeddings are split back by `len(tables_descriptions)` (lines 332–333).
* `main_tasks` contains the table-embedding search only when `table_embeddings`
  is non-empty and the column-embedding search only when `column_embeddings`
  is non-empty (lines 337–340).
* The unpacking (lines 346–347) reads `results[0]` as the table-search result
  whenever `table_embeddings` is non-empty, and reads `results[1]` as the
  column-search result only when *both* lists are non-empty — so when only the
  column search ran, its result (sitting in `results[0]`) is discarded.
* `found_table_names` is taken from `tables_des` only (line 350), and the
  sphere/connector searches run exactly when it is non-empty (lines 353–360).
* The four result lists are concatenated in the order
  table, column, connector (`tables_by_route`), sphere (lines 362–364). -/
def find (env : FindEnv) : FindOut :=
  let descriptions_text := env.tablesDescs ++ env.columnsDescs
  if descriptions_text = [] then
    ⟨[], ⟨false, false, [], false, false⟩⟩
  else
    let embedding_results := env.embed descriptions_text
    let table_embeddings := embedding_results.take env.tablesDescs.length
    let column_embeddings := embedding_results.drop env.tablesDescs.length
    let results :=
      (if table_embeddings ≠ [] then [findTablesByEmb env table_embeddings] else []) ++
      (if column_embeddings ≠ [] then [findTablesByColumns env column_embeddings] else [])
    let tables_des := if table_embeddings ≠ [] then results.getD 0 [] else []
    let tables_by_columns_des :=
      if table_embeddings ≠ [] ∧ column_embeddings ≠ [] then results.getD 1 [] else []
    let found_table_names := tables_des.map FRow.name
    let tables_by_sphere :=
      if found_table_names ≠ [] then findTablesSphere env found_table_names else []
    let tables_by_route :=
      if found_table_names ≠ [] then findConnectingTables env found_table_names else []
    ⟨get_unique_tables (tables_des ++ tables_by_columns_des ++ tables_by_route ++ tables_by_sphere),
     ⟨table_embeddings ≠ [], column_embeddings ≠ [], found_table_names,
      found_table_names ≠ [], found_table_names ≠ []⟩⟩

/-! ## Orchestrator (src/api/core/text2sql.py) -/

/-- `Config.SHORT_MEMORY_LENGTH` (src/api/config.py line 77). -/
def SHORT_MEMORY_LENGTH : Nat := 5

/-- The destructive first keywords (text2sql.py lines 367–368). -/
def destructiveOps : List String :=
  ["INSERT", "UPDATE", "DELETE", "DROP", "CREATE", "ALTER", "TRUNCATE"]

/-- Model of `get_database_type_and_loader` (text2sql.py lines 61–82), reduced
to the detected database type: the loader class is `none` exactly when the
type is `none` (empty URL or the sentinel), and otherwise defaults to
PostgreSQL. -/
def get_database_type_and_loader (db_url : String) : Option String :=
  if db_url = "" ∨ db_url = "No URL available for this database." then Option.none
  else
    let dbl := pyLower db_url
    if pyStartsWith dbl "postgresql://" || pyStartsWith dbl "postgres://" then some "postgresql"
    else if pyStartsWith dbl "mysql://" then some "mysql"
    else some "postgresql"

/-- Python truthiness of the `GENERAL_PREFIX` environment variable combined
with `graph_id.startswith(GENERAL_PREFIX)` (text2sql.py line 370: a missing or
empty variable is falsy, so the result is `False` then). -/
def generalGraph (demoPfx : Option String) (graph_id : String) : Bool :=
  match demoPfx with
  | Option.none => false
  | some p => if p = "" then false else pyStartsWith graph_id p

/-- Model of `_graph_name` (text2sql.py lines 98–107): strip and truncate the
graph id, raise `GraphNotFoundError` when it becomes empty, keep demo-prefixed
ids un-namespaced, otherwise prepend `user_id + "_"`. -/
def graph_name (demoPfx : Option String) (user_id graph_id : String) : Except String String :=
  let g := pyTake (pyStrip graph_id) 200
  if g = "" then Except.error "GraphNotFoundError"
  else if generalGraph demoPfx g then Except.ok g
  else Except.ok (user_id ++ "_" ++ g)

/-- History truncation of `query_database` (text2sql.py lines 223–232): keep
the last `SHORT_MEMORY_LENGTH` questions; when the result list is truthy
(non-`None` and non-empty), keep its last `SHORT_MEMORY_LENGTH - 1` entries
(or empty it when that bound is zero). -/
def truncate_history (queries_history : List String) (result_history : Option (List String)) :
    List String × Option (List String) :=
  if queries_history.length > SHORT_MEMORY_LENGTH then
    let q := pyTakeLast SHORT_MEMORY_LENGTH queries_history
    let r := match result_history with
      | Option.none => Option.none
      | some rs =>
        if rs ≠ [] then
          if SHORT_MEMORY_LENGTH - 1 > 0 then some (pyTakeLast (SHORT_MEMORY_LENGTH - 1) rs)
          else some []
        else some rs
    (q, r)
  else (queries_history, result_history)

/-- First-keyword extraction of text2sql.py line 365:
`sql_query.strip().split()[0].upper() if sql_query else ""`.  The result is
`Option.none` when the guarded indexing raises `IndexError`, which happens
exactly for a non-empty, all-whitespace string. -/
def sqlTypeOf (sql_query : String) : Option String :=
  if sql_query = "" then some ""
  else
    match pySplitWs (pyStrip sql_query) with
    | [] => Option.none
    | t :: _ => some (pyUpper t)

/-- Per-operation bullet line of the confirmation message (text2sql.py lines
382–401). -/
def opBullet (sql_type : String) : String :=
  if sql_type = "INSERT" then "• Add new data to the database"
  else if sql_type = "UPDATE" then "• Modify existing data in the database"
  else if sql_type = "DELETE" then "• **PERMANENTLY DELETE** data from the database"
  else if sql_type = "DROP" then "• **PERMANENTLY DELETE** entire tables or database objects"
  else if sql_type = "CREATE" then "• Create new tables or database objects"
  else if sql_type = "ALTER" then "• Modify the structure of existing tables"
  else if sql_type = "TRUNCATE" then "• **PERMANENTLY DELETE ALL DATA** from specified tables"
  else ""

/-- Confirmation message of text2sql.py lines 373–405. -/
def confirmationMessage (sql_type sql_query : String) : String :=
  "⚠️ DESTRUCTIVE OPERATION DETECTED ⚠️\n\nThe generated SQL query will perform a **" ++
  sql_type ++ "** operation:\n\nSQL:\n" ++ sql_query ++ "\n\nWhat this will do:\n" ++
  opBullet sql_type ++
  "\n\n⚠️ WARNING: This operation will make changes to your database and may be irreversible.\n"

/-- One streamed pipeline event.  `final_response` is `some b` when the JSON
object carries a `final_response` field (all events of the main pipeline) and
`Option.none` when it does not (all events of the confirmation flow).  Only
the payload fields some event kind actually carries are modelled; unused
fields keep their defaults. -/
structure Event where
  type : String
  final_response : Option Bool := Option.none
  message : String := ""
  data : String := ""
  rows : List String := []
  conf : Int := 0
  miss : String := ""
  amb : String := ""
  exp : String := ""
  is_valid : Bool := false
  sql_query : String := ""
  operation_type : String := ""
  original_error : String := ""
  healed_sql : String := ""
  refresh_status : String := ""
deriving Repr, DecidableEq

/-- The analysis verdict as consumed by `generate` after `get_analysis`
post-processing (the list fields already flattened to strings). -/
structure Verdict where
  is_sql_translatable : Bool
  sql_query : String
  confidence : Int
  missing_information : String
  ambiguities : String
  explanation : String
deriving Repr, DecidableEq

/-- Return dictionary of the (non-existent) `heal_query` healer call as the
orchestrator reads it (text2sql.py lines 465–473): `healing_failed`,
`sql_query` and `changes_made`. -/
structure HealResult where
  healing_failed : Bool
  sql_query : String
  changes_made : List String
deriving Repr, DecidableEq

/-- Attribute lookup of `heal_query` on a `HealerAgent` instance.  The class
defines no such method (`healerAgentMethods`), and has no base class, so the
lookup fails: calling it raises `AttributeError`.  This definition instantiates
the `healQuery` oracle of `PipelineEnv` for the actual repository. -/
def healQueryLookup :
    Option (String → String → String → String → String → HealResult) :=
  if healerAgentMethods.contains "heal_query" then
    some (fun _ _ _ _ _ => { healing_failed := true, sql_query := "", changes_made := [] })
  else Option.none

/-- Oracle environment for one run of `generate` (text2sql.py lines 239–662).
Each field stands for one collaborator call site:
`dbDescription`/`dbUrl` for `get_db_description`, `relevancy…` for the
relevancy agent, `findResult` for `find`, `analysis` for
`get_analysis` (a run that reaches line 323, i.e. in which `get_analysis`
returned a well-formed verdict), `autoQuote` for
`SQLIdentifierQuoter.auto_quote_identifiers` (with the known tables and quote
character already applied), `isSchemaModifying` for
`loader_class.is_schema_modifying_query`, `execSql` for
`loader_class.execute_sql_query` (raising = `Except.error`), `healQuery` for
the `HealerAgent().heal_query` attribute lookup (instantiated by
`healQueryLookup` for the real class), `refreshResult` for
`loader_class.refresh_graph_schema`, `formatted` for
`ResponseFormatterAgent.format_response` and `followUp` for
`FollowUpAgent.generate_follow_up_question`. -/
structure PipelineEnv where
  dbDescription : String
  dbUrl : String
  relevancyStatus : String
  relevancyReason : String
  findResult : List FRow
  analysis : Verdict
  autoQuote : String → String × Bool
  isSchemaModifying : String → Bool × String
  execSql : String → Except String (List String)
  healQuery : Option (String → String → String → String → String → HealResult)
  refreshResult : Bool × String
  formatted : String
  followUp : String

/-- Result of one `generate` run: the ordered event stream, the SQL statements
passed to `execute_sql_query` (the execution side-effect trace), and whether
the async generator was aborted by an uncaught exception (truncating the
stream without a final event). -/
structure GenOut where
  events : List Event
  execTrace : List String
  aborted : Bool
deriving Repr, DecidableEq

/-- A reasoning-step event of the main pipeline. -/
def stepEv (msg : String) : Event :=
  { type := "reasoning_step", final_response := some false, message := msg }

/-- The sanitized execution-error event of the main pipeline's outer exception
handler (text2sql.py lines 577–581). -/
def errorExecEv : Event :=
  { type := "error", final_response := some true, message := "Error executing SQL query" }

/-- Schema-refresh success message (text2sql.py lines 514–518). -/
def refreshSuccessMsg (operation_type : String) : String :=
  "✅ Schema change detected (" ++ operation_type ++
  " operation)\n\n🔄 Graph schema has been automatically refreshed with the latest database structure."

/-- Schema-refresh failure message (text2sql.py lines 528–529). -/
def refreshFailMsg (refresh_message : String) : String :=
  "⚠️ Schema was modified but graph refresh failed: " ++ refresh_message

/-- The last user question, `queries_history[-1]`. -/
def lastQ (queries_history : List String) : String := queries_history.getLastD ""

/-- Shared tail of a successful execution in `generate` (text2sql.py lines
492–560): the `query_result` event only for a non-empty result list, the
conditional schema refresh, the numbered formatting step, and the final
`ai_response` event. -/
def successTail (query_results : List String) (is_schema_modifying : Bool)
    (operation_type : String) (refreshResult : Bool × String) (formatted : String) :
    List Event :=
  ((if query_results ≠ [] then
      [{ type := "query_result", final_response := some false, rows := query_results }]
    else []) ++
   (if is_schema_modifying then
      [stepEv "Step 3: Schema change detected - refreshing graph...",
       (if refreshResult.1 then
          { type := "schema_refresh", final_response := some false,
            message := refreshSuccessMsg operation_type, refresh_status := "success" }
        else
          { type := "schema_refresh", final_response := some false,
            message := refreshFailMsg refreshResult.2, refresh_status := "failed" })]
    else []) ++
   [stepEv ("Step " ++ (if is_schema_modifying then "4" else "3") ++
            ": Generating user-friendly response")]) ++
  [{ type := "ai_response", final_response := some true, message := formatted }]

/-- Execution region of `generate` (text2sql.py lines 432–581): the Step 2
event, the schema-modification check, SQL execution with the healing branch on
failure, and the outer exception handler that turns any raised error into the
sanitized terminal error event.  `pre` is the event stream emitted so far.

The healing branch is faithful to lines 445–491: on an execution error the
Step 2a event is emitted, then `HealerAgent().heal_query(...)` is called.
When the `healQuery` attribute lookup fails (`Option.none`, the actual
repository: see `healQueryLookup`) the raised `AttributeError` propagates —
while handling `exec_error` — to the outer handler, which emits the terminal
error event.  When a `heal_query` result is available: a `healing_failed`
result re-raises the *original* error (line 466); otherwise the
`healing_attempt` event is emitted, the healed SQL is executed, and on success
`answer_an["sql_query"]` is overwritten and the `healing_success` event is
emitted, on failure the healed error propagates to the outer handler. -/
def execPhase (env : PipelineEnv) (queries_history : List String)
    (db_type sql_query : String) (pre : List Event) : GenOut :=
  let step2 := stepEv "Step 2: Executing SQL query"
  let sm := env.isSchemaModifying sql_query
  match env.execSql sql_query with
  | Except.ok query_results =>
    ⟨(pre ++ [step2]) ++ successTail query_results sm.1 sm.2 env.refreshResult env.formatted,
     [sql_query], false⟩
  | Except.error exec_error =>
    let step2a := stepEv "Step 2a: SQL execution failed, attempting to heal query..."
    match env.healQuery with
    | Option.none =>
      ⟨pre ++ [step2, step2a, errorExecEv], [sql_query], false⟩
    | some heal =>
      let healing_result :=
        heal sql_query exec_error (pyTake env.dbDescription 500) (lastQ queries_history) db_type
      if healing_result.healing_failed then
        ⟨pre ++ [step2, step2a, errorExecEv], [sql_query], false⟩
      else
        let healEv : Event :=
          { type := "healing_attempt", final_response := some false,
            message := "Query was automatically fixed. Changes made: " ++
                       pyJoin ", " healing_result.changes_made,
            original_error := exec_error, healed_sql := healing_result.sql_query }
        match env.execSql healing_result.sql_query with
        | Except.ok rows2 =>
          ⟨(pre ++ [step2, step2a, healEv,
             { type := "healing_success", final_response := some false,
               message := "✅ Healed query executed successfully" }]) ++
           successTail rows2 sm.1 sm.2 env.refreshResult env.formatted,
           [sql_query, healing_result.sql_query], false⟩
        | Except.error _ =>
          ⟨pre ++ [step2, step2a, healEv, errorExecEv],
           [sql_query, healing_result.sql_query], false⟩

/-- Model of the `generate` async generator of `query_database` (text2sql.py
lines 239–662).  Faithful points:
* The `sql_query` event (lines 324–335) carries the verdict's fields *before*
  auto-quoting (lines 339–361 run after the yield, inside the translatable
  branch).
* The first-keyword extraction (line 365) raises `IndexError` on a non-empty
  all-whitespace query; the uncaught exception aborts the stream (`aborted`).
* A destructive statement on a non-demo graph yields the
  `destructive_confirmation` event and returns (lines 371–422).
* A destructive statement on a demo graph yields a terminal error event
  (lines 425–431); nothing is executed.
* The background memory tasks after the terminal event emit no events and are
  not part of the stream. -/
def generate (demoPfx : Option String) (graph_id : String)
    (queries_history : List String) (env : PipelineEnv) : GenOut :=
  let step1 := stepEv "Step 1: Analyzing user query and generating SQL..."
  match get_database_type_and_loader env.dbUrl with
  | Option.none =>
    ⟨[step1, { type := "error", final_response := some true,
               message := "Unable to determine database type" }], [], false⟩
  | some db_type =>
    if env.relevancyStatus ≠ "On-topic" then
      ⟨[step1, { type := "followup_questions", final_response := some true,
                 message := "Off topic question: " ++ env.relevancyReason }], [], false⟩
    else
      let answer := env.analysis
      let sqlEv : Event :=
        { type := "sql_query", final_response := some false, data := answer.sql_query,
          conf := answer.confidence, miss := answer.missing_information,
          amb := answer.ambiguities, exp := answer.explanation,
          is_valid := answer.is_sql_translatable }
      if answer.is_sql_translatable then
        let aq := env.autoQuote answer.sql_query
        let sql_query := if aq.2 then aq.1 else answer.sql_query
        match sqlTypeOf sql_query with
        | Option.none => ⟨[step1, sqlEv], [], true⟩
        | some sql_type =>
          let is_destructive := destructiveOps.contains sql_type
          let general_graph := generalGraph demoPfx graph_id
          if is_destructive && !general_graph then
            ⟨[step1, sqlEv,
              { type := "destructive_confirmation", final_response := some false,
                message := confirmationMessage sql_type sql_query,
                sql_query := sql_query, operation_type := sql_type }], [], false⟩
          else if is_destructive && general_graph then
            ⟨[step1, sqlEv,
              { type := "error", final_response := some true,
                message := "Destructive operation not allowed on demo graphs" }], [], false⟩
          else
            execPhase env queries_history db_type sql_query [step1, sqlEv]
      else
        ⟨[step1, sqlEv,
          { type := "followup_questions", final_response := some true,
            message := env.followUp, miss := answer.missing_information,
            amb := answer.ambiguities }], [], false⟩

/-- Oracle environment for the confirmation flow (text2sql.py lines 688–853);
fields as in `PipelineEnv`, restricted to the collaborators this flow uses. -/
structure ConfirmEnv where
  dbDescription : String
  dbUrl : String
  autoQuote : String → String × Bool
  isSchemaModifying : String → Bool × String
  execSql : String → Except String (List String)
  refreshResult : Bool × String
  formatted : String

/-- The `ConfirmRequest` payload (text2sql.py lines 50–58). -/
structure ConfirmReq where
  sql_query : String
  confirmation : String := ""
  chat : List String := []

/-- Model of the `generate_confirmation` async generator (text2sql.py lines
688–853): only a (normalized) `"CONFIRM"` reply executes; the events of this
flow carry no `final_response` field (`Option.none`).  Any reply other than
`"CONFIRM"` yields only the cancellation event and executes nothing. -/
def generate_confirmation (confirmation sql_query0 : String) (env : ConfirmEnv) : GenOut :=
  if confirmation = "CONFIRM" then
    match get_database_type_and_loader env.dbUrl with
    | Option.none =>
      ⟨[{ type := "error", message := "Unable to determine database type" }], [], false⟩
    | some _ =>
      let step2 : Event :=
        { type := "reasoning_step", message := "Step 2: Executing confirmed SQL query" }
      let sql_query :=
        if sql_query0 ≠ "" then
          (let aq := env.autoQuote sql_query0; if aq.2 then aq.1 else sql_query0)
        else sql_query0
      let sm := env.isSchemaModifying sql_query
      match env.execSql sql_query with
      | Except.error _ =>
        ⟨[step2, { type := "error", message := "Error executing query" }], [sql_query], false⟩
      | Except.ok query_results =>
        ⟨([step2, { type := "query_result", rows := query_results }] ++
          (if sm.1 then
            [{ type := "reasoning_step",
               message := "Step 3: Schema change detected - refreshing graph..." },
             (if env.refreshResult.1 then
                { type := "schema_refresh", message := refreshSuccessMsg sm.2,
                  refresh_status := "success" }
              else
                { type := "schema_refresh", message := refreshFailMsg env.refreshResult.2,
                  refresh_status := "failed" })]
           else []) ++
          [{ type := "reasoning_step",
             message := "Step " ++ (if sm.1 then "4" else "3") ++
                        ": Generating user-friendly response" }]) ++
         [{ type := "ai_response", message := env.formatted }],
         [sql_query], false⟩
  else
    ⟨[{ type := "operation_cancelled",
        message := "Operation cancelled. The destructive SQL query was not executed." }],
     [], false⟩

/-- Model of `execute_destructive_operation` (text2sql.py lines 665–855): the
graph id is namespaced with `_graph_name`, the reply is normalized with
`strip().upper()` (line 677), a missing SQL statement raises
`InvalidArgumentError`, and the streaming generator is returned.  Note that,
unlike the main pipeline (lines 425–431) and the refresh/delete endpoints,
this function never consults the demo prefix before executing. -/
def execute_destructive_operation (demoPfx : Option String) (user_id graph_id : String)
    (confirm_data : ConfirmReq) (env : ConfirmEnv) : Except String GenOut :=
  match graph_name demoPfx user_id graph_id with
  | Except.error e => Except.error e
  | Except.ok _ =>
    let confirmation := pyUpper (pyStrip confirm_data.confirmation)
    if confirm_data.sql_query = "" then
      Except.error "InvalidArgumentError: No SQL query provided"
    else
      Except.ok (generate_confirmation confirmation confirm_data.sql_query env)

/-! ## Concrete environments used by the theorems below -/

/-- A JSON-parse oracle for a model response that contains no parseable JSON
object anywhere: every candidate string raises `json.JSONDecodeError`. -/
def jpFail : String → Except String PyDict :=
  fun _ => Except.error "Expecting value: line 1 column 1 (char 0)"

/-- A pipeline run in which the analyzed SQL fails execution: on-topic
translatable verdict, PostgreSQL URL, the statement raises
`no such table: t`, and the `heal_query` attribute lookup is the real one
(`healQueryLookup`). -/
def envExecFail : PipelineEnv :=
  { dbDescription := "sales db", dbUrl := "postgresql://db", relevancyStatus := "On-topic",
    relevancyReason := "", findResult := [],
    analysis := ⟨true, "SELECT a FROM t", 90, "", "", "ok"⟩,
    autoQuote := fun s => (s, false),
    isSchemaModifying := fun _ => (false, ""),
    execSql := fun _ => Except.error "no such table: t",
    healQuery := healQueryLookup,
    refreshResult := (true, ""), formatted := "resp", followUp := "" }

/-- A pipeline run with a translatable verdict whose `sql_query` is a single
space: non-empty, so the line-365 guard passes, but `strip().split()` is empty
and the indexing raises `IndexError`. -/
def envWhitespaceSql : PipelineEnv :=
  { envExecFail with analysis := ⟨true, " ", 90, "", "", "ok"⟩ }

/-- A successful non-destructive run with an empty result list. -/
def envEmptyResult : PipelineEnv :=
  { envExecFail with execSql := fun _ => Except.ok [] }

/-- A destructive-statement run on a non-demo graph. -/
def envDestructive : PipelineEnv :=
  { envExecFail with analysis := ⟨true, "DELETE FROM t", 90, "", "", "ok"⟩ }

/-- Confirmation-flow collaborators: PostgreSQL URL, identity auto-quoting,
schema-modifying detection true with verb `DROP`, execution succeeding with an
empty result list. -/
def confirmEnvC : ConfirmEnv :=
  { dbDescription := "sales db", dbUrl := "postgresql://db",
    autoQuote := fun s => (s, false),
    isSchemaModifying := fun _ => (true, "DROP"),
    execSql := fun _ => Except.ok [],
    refreshResult := (true, ""), formatted := "resp" }

/-- Healing session whose initial failure is `no such table: t` and in which
every healed attempt fails with a different error, `no such column: y`:
the LLM always proposes the same JSON object, the parser accepts it, and the
execution of the proposed statement raises the new error. -/
def healEnvC : HealEnv :=
  { llm := fun _ => "\x7b\"sql_query\": \"SELECT y\"\x7d",
    jp := fun s =>
      if s = "\x7b\"sql_query\": \"SELECT y\"\x7d" then
        Except.ok [("sql_query", PyVal.str "SELECT y")]
      else Except.error "Expecting value",
    exec := fun v =>
      match v with
      | PyVal.str "SELECT y" => Except.error "no such column: y"
      | _ => Except.error "not executable" }

/-- Retrieval environment in which the schema-description step produced no
table stubs and one column stub, and the column vector search finds the
`orders` table. -/
def findEnvC : FindEnv :=
  { tablesDescs := [], columnsDescs := ["column holding customer order ids"],
    embed := fun l => l.map (fun _ => [1]),
    tableSearch := fun _ => [],
    columnSearch := fun _ => [⟨"orders", "orders table", "[]", []⟩],
    sphereQuery := fun _ => [],
    connectorQuery := fun _ => [] }

/-- Retrieval environment with one table stub and one column stub, each search
finding a distinct table. -/
def findEnvBoth : FindEnv :=
  { tablesDescs := ["orders table"], columnsDescs := ["customer name column"],
    embed := fun l => l.map (fun _ => [1]),
    tableSearch := fun _ => [⟨"orders", "orders table", "[]", []⟩],
    columnSearch := fun _ => [⟨"customers", "customers table", "[]", []⟩],
    sphereQuery := fun _ => [⟨"order_items", "join table", "[]", []⟩],
    connectorQuery := fun _ => [] }

/-- A single retrieval row, duplicated nowhere. -/
def dedupRow : FRow := ⟨"t", "a table", "fk-json", [[("columnName", "c")]]⟩

/-! ## Theorems -/

/-- Keeping a row does not change its table name. -/
@[simp] theorem keepRow_name (r : FRow) : (keepRow r).name = r.name := rfl

/-- Names produced by the dedup loop are nodup and disjoint from the seen
set. -/
theorem uniqueGo_names (rows : List FRow) : ∀ seen : List String,
    ((uniqueGo rows seen).map FRow.name).Nodup ∧
    ∀ n ∈ (uniqueGo rows seen).map FRow.name, n ∉ seen := by
  induction rows with
  | nil => intro seen; simp [uniqueGo]
  | cons r rs ih =>
    intro seen
    by_cases h : r.name ∈ seen
    · simpa [uniqueGo, h] using ih seen
    · have ih' := ih (r.name :: seen)
      constructor
      · simp only [uniqueGo, if_neg h, List.map_cons, keepRow_name, List.nodup_cons]
        exact ⟨fun hmem => (ih'.2 r.name hmem) (List.mem_cons_self _ _), ih'.1⟩
      · intro n hn
        simp only [uniqueGo, if_neg h, List.map_cons, keepRow_name, List.mem_cons] at hn
        rcases hn with rfl | hn
        · exact h
        · intro hseen
          exact (ih'.2 n hn) (List.mem_cons_of_mem _ hseen)

/-- When the input rows already have pairwise-distinct names disjoint from the
seen set, the dedup loop keeps every row (transformed). -/
theorem uniqueGo_eq_of_nodup (rows : List FRow) : ∀ seen : List String,
    (rows.map FRow.name).Nodup → (∀ r ∈ rows, r.name ∉ seen) →
    uniqueGo rows seen = rows.map keepRow := by
  induction rows with
  | nil => intro seen _ _; simp [uniqueGo]
  | cons r rs ih =>
    intro seen hnd hdis
    have hr : r.name ∉ seen := hdis r (List.mem_cons_self _ _)
    simp only [uniqueGo, if_neg hr, List.map_cons]
    congr 1
    apply ih
    · exact (List.nodup_cons.mp (by simpa using hnd)).2
    · intro x hx
      simp only [List.mem_cons, not_or]
      refine ⟨?_, hdis x (List.mem_cons_of_mem _ hx)⟩
      intro hxx
      have hnotin : r.name ∉ rs.map FRow.name := (List.nodup_cons.mp (by simpa using hnd)).1
      exact hnotin (hxx ▸ List.mem_map_of_mem FRow.name hx)

/-- First-wins: looking up a name in the dedup output finds exactly the
transformed first occurrence of that name in the input. -/
theorem find?_uniqueGo (rows : List FRow) : ∀ (seen : List String) (n : String), n ∉ seen →
    (uniqueGo rows seen).find? (fun r => r.name == n) =
      (rows.find? (fun r => r.name == n)).map keepRow := by
  induction rows with
  | nil => intro seen n _; simp [uniqueGo]
  | cons r rs ih =>
    intro seen n hn
    by_cases h : r.name ∈ seen
    · have hne : (r.name == n) = false := by
        simp only [beq_eq_false_iff_ne, ne_eq]
        intro e; exact hn (e ▸ h)
      simp only [uniqueGo, if_pos h, List.find?_cons, hne, ih seen n hn]
    · by_cases he : r.name = n
      · subst he
        simp [uniqueGo, if_neg h, List.find?_cons]
      · have hne : (r.name == n) = false := by simp [he]
        have hn' : n ∉ r.name :: seen := by
          simp only [List.mem_cons, not_or]
          exact ⟨fun e => he e.symm, hn⟩
        simp only [uniqueGo, if_neg h, List.find?_cons, keepRow_name, hne, ih _ n hn']

/-- The name of every input row survives deduplication (membership in the
output's name list), provided it is not already in the seen set. -/
theorem mem_names_uniqueGo (rows : List FRow) : ∀ (seen : List String) (r : FRow),
    r ∈ rows → r.name ∉ seen → r.name ∈ (uniqueGo rows seen).map FRow.name := by
  induction rows with
  | nil => intro seen r h _; cases h
  | cons x xs ih =>
    intro seen r hmem hns
    rcases List.mem_cons.mp hmem with rfl | hmem'
    · simp [uniqueGo, if_neg hns]
    · by_cases hx : x.name ∈ seen
      · simpa [uniqueGo, hx] using ih seen r hmem' hns
      · by_cases hrx : r.name = x.name
        · simp [uniqueGo, if_neg hx, hrx]
        · have : r.name ∉ x.name :: seen := by
            simp only [List.mem_cons, not_or]; exact ⟨hrx, hns⟩
          simp only [uniqueGo, if_neg hx, List.map_cons, keepRow_name, List.mem_cons]
          exact Or.inr (ih _ r hmem' this)

/-- CLAIM C6 (counterexample).  The claim states that applying
`_get_unique_tables` twice yields the same result as applying it once.  On the
one-row list `[dedupRow]` a second application prepends a second
`"Foreign keys: "` to the foreign-key field (graph.py line 379 mutates the kept
row on every application), so the double application differs from the single
one. -/
theorem dedup_not_idempotent :
    get_unique_tables (get_unique_tables [dedupRow]) ≠ get_unique_tables [dedupRow] := by
  decide

/-- CLAIM C6 (amended).  For every retrieval result list, deduplication keeps,
for each table name, exactly the first occurrence in the list (a later
duplicate never overwrites an earlier one — the lookup of any name in the
output is the transformed first occurrence of that name in the input), and a
second application of the deduplication preserves the table names and their
order; full idempotence fails only because each application prepends another
`"Foreign keys: "` prefix to the kept row's foreign-key field. -/
theorem dedup_first_wins_and_names_idempotent (L : List FRow) :
    (∀ n : String,
      (get_unique_tables L).find? (fun r => r.name == n) =
        (L.find? (fun r => r.name == n)).map keepRow) ∧
    (get_unique_tables (get_unique_tables L)).map FRow.name =
      (get_unique_tables L).map FRow.name := by
  constructor
  · intro n
    exact find?_uniqueGo L [] n (by simp)
  · have hnd : ((get_unique_tables L).map FRow.name).Nodup := (uniqueGo_names L []).1
    have heq : uniqueGo (get_unique_tables L) [] = (get_unique_tables L).map keepRow :=
      uniqueGo_eq_of_nodup _ [] hnd (by intro r _; simp)
    calc (get_unique_tables (get_unique_tables L)).map FRow.name
        = ((get_unique_tables L).map keepRow).map FRow.name := by
          rw [get_unique_tables, heq]
      _ = (get_unique_tables L).map FRow.name := by
          simp [List.map_map, Function.comp]

/-- CLAIM C9.  For every conversation history with more than
`SHORT_MEMORY_LENGTH` questions (with the answers list one shorter than the
questions list, as the current question has no answer yet), the pre-pipeline
truncation leaves exactly `SHORT_MEMORY_LENGTH` questions and exactly
`SHORT_MEMORY_LENGTH - 1` answers, and both kept lists are suffixes of the
originals (the most recent entries), preserving the trailing
question/answer alignment. -/
theorem history_truncation (qs rs : List String)
    (hlen : qs.length > SHORT_MEMORY_LENGTH)
    (halign : rs.length = qs.length - 1) :
    (truncate_history qs (some rs)).1.length = SHORT_MEMORY_LENGTH ∧
    (truncate_history qs (some rs)).1 <:+ qs ∧
    ∃ rs', (truncate_history qs (some rs)).2 = some rs' ∧
      rs'.length = SHORT_MEMORY_LENGTH - 1 ∧ rs' <:+ rs := by
  have hlen5 : qs.length > 5 := hlen
  have hrs : rs ≠ [] := by
    intro h
    rw [h] at halign
    simp only [List.length_nil] at halign
    omega
  have h41 : (5 : Nat) - 1 > 0 := by norm_num
  simp only [truncate_history, SHORT_MEMORY_LENGTH, pyTakeLast, hrs, ne_eq, not_false_iff,
    if_true, if_pos hlen5, if_pos h41]
  refine ⟨?_, List.drop_suffix _ _, rs.drop (rs.length - (5 - 1)), rfl, ?_,
    List.drop_suffix _ _⟩
  · rw [List.length_drop]
    omega
  · rw [List.length_drop]
    omega

/-- CLAIM C9 (witness): a six-question history with five answers truncates to
the last five questions and last four answers. -/
theorem history_truncation_witness :
    (["q1", "q2", "q3", "q4", "q5", "q6"].length > SHORT_MEMORY_LENGTH ∧
     ["a1", "a2", "a3", "a4", "a5"].length = ["q1", "q2", "q3", "q4", "q5", "q6"].length - 1) ∧
    ((truncate_history ["q1", "q2", "q3", "q4", "q5", "q6"]
        (some ["a1", "a2", "a3", "a4", "a5"])).1.length = SHORT_MEMORY_LENGTH ∧
     (truncate_history ["q1", "q2", "q3", "q4", "q5", "q6"]
        (some ["a1", "a2", "a3", "a4", "a5"])).1 <:+ ["q1", "q2", "q3", "q4", "q5", "q6"] ∧
     ∃ rs', (truncate_history ["q1", "q2", "q3", "q4", "q5", "q6"]
        (some ["a1", "a2", "a3", "a4", "a5"])).2 = some rs' ∧
       rs'.length = SHORT_MEMORY_LENGTH - 1 ∧ rs' <:+ ["a1", "a2", "a3", "a4", "a5"]) :=
  ⟨⟨by decide, by decide⟩,
   history_truncation ["q1", "q2", "q3", "q4", "q5", "q6"] ["a1", "a2", "a3", "a4", "a5"]
     (by decide) (by decide)⟩

/-- The healing loop never reports more attempts than the bound. -/
theorem healLoop_attempts_le (env : HealEnv) (maxA : Nat) (s e : String) :
    ∀ (fuel : Nat) (msgs : List Msg),
      (healLoop env maxA s e fuel msgs).attempts ≤ maxA := by
  intro fuel
  induction fuel with
  | zero => intro msgs; simp [healLoop]
  | succ n ih =>
    intro msgs
    simp only [healLoop]
    cases env.exec (pyGetD (parse_response env.jp (env.llm msgs)) "sql_query" (PyVal.str "")) with
    | ok rows => simp [Nat.sub_le]
    | error err =>
      by_cases hn : n = 0
      · simp [hn, Nat.sub_le]
      · simp only [hn, if_false]
        exact ih _

/-- On exhaustion (at least one loop iteration), the reported error is the
error raised by executing the returned (last healed) statement, and all
`maxA` attempts were used. -/
theorem healLoop_fail_reports_last (env : HealEnv) (maxA : Nat) (s e : String) :
    ∀ (fuel : Nat) (msgs : List Msg), 1 ≤ fuel →
      (healLoop env maxA s e fuel msgs).success = false →
      ∃ err, env.exec (healLoop env maxA s e fuel msgs).sql_query = Except.error err ∧
        (healLoop env maxA s e fuel msgs).final_error = some err ∧
        (healLoop env maxA s e fuel msgs).attempts = maxA := by
  intro fuel
  induction fuel with
  | zero => intro msgs h; omega
  | succ n ih =>
    intro msgs _ hfail
    simp only [healLoop] at hfail ⊢
    split at hfail
    next rows heq =>
      simp at hfail
    next err heq =>
      by_cases hn : n = 0
      · subst hn
        refine ⟨err, ?_, ?_, ?_⟩ <;> simp [heq]
      · rw [if_neg hn] at hfail ⊢
        exact ih _ (by omega) hfail

/-- CLAIM C4 (counterexample).  The claim states that when all healing
attempts fail, the error reported back equals the *original* pre-healing
error.  In `healEnvC` the original failure is `no such table: t`, every healed
attempt fails with `no such column: y`, and after exhausting the default three
attempts `heal_and_execute` reports `no such column: y` — the last attempt's
error, not the original one (healer_agent.py lines 260–267 return the loop
error; the original error is only returned by the unreachable fallback at
lines 283–289). -/
theorem healer_reports_last_error :
    (heal_and_execute healEnvC 3 "SELECT x FROM t" "no such table: t" "" "" "sqlite").success
        = false ∧
    (heal_and_execute healEnvC 3 "SELECT x FROM t" "no such table: t" "" "" "sqlite").final_error
        = some "no such column: y" ∧
    (some "no such column: y" : Option String) ≠ some "no such table: t" := by
  refine ⟨rfl, rfl, by decide⟩

/-- CLAIM C4 (amended).  For every healing session with at least one allowed
attempt, the number of attempts reported is at most `max_attempts`, and when
all attempts fail the session used exactly `max_attempts` attempts and the
reported error is the error raised by executing the *last healed* statement
(the returned `sql_query`) — not, in general, the original pre-healing error,
which is only returned by the unreachable `max_attempts = 0` fallback. -/
theorem healer_bound_and_final_error (env : HealEnv) (maxA : Nat)
    (initial_sql initial_error db_description question database_type : String)
    (hmax : 1 ≤ maxA) :
    (heal_and_execute env maxA initial_sql initial_error db_description question
        database_type).attempts ≤ maxA ∧
    ((heal_and_execute env maxA initial_sql initial_error db_description question
        database_type).success = false →
      ∃ err,
        env.exec (heal_and_execute env maxA initial_sql initial_error db_description question
            database_type).sql_query = Except.error err ∧
        (heal_and_execute env maxA initial_sql initial_error db_description question
            database_type).final_error = some err ∧
        (heal_and_execute env maxA initial_sql initial_error db_description question
            database_type).attempts = maxA) := by
  constructor
  · exact healLoop_attempts_le env maxA initial_sql initial_error maxA _
  · intro hfail
    exact healLoop_fail_reports_last env maxA initial_sql initial_error maxA _ hmax hfail

/-- CLAIM C4 (witness): the amended theorem applied to the concrete session
`healEnvC` with the default bound of three attempts. -/
theorem healer_bound_witness :
    (1 ≤ 3 ∧
      (heal_and_execute healEnvC 3 "SELECT x FROM t" "no such table: t" "" "" "sqlite").attempts
          ≤ 3) ∧
    ((heal_and_execute healEnvC 3 "SELECT x FROM t" "no such table: t" "" "" "sqlite").success
        = false →
      ∃ err,
        healEnvC.exec (heal_and_execute healEnvC 3 "SELECT x FROM t" "no such table: t" "" ""
            "sqlite").sql_query = Except.error err ∧
        (heal_and_execute healEnvC 3 "SELECT x FROM t" "no such table: t" "" ""
            "sqlite").final_error = some err ∧
        (heal_and_execute healEnvC 3 "SELECT x FROM t" "no such table: t" "" ""
            "sqlite").attempts = 3) :=
  ⟨⟨by decide,
    (healer_bound_and_final_error healEnvC 3 "SELECT x FROM t" "no such table: t" "" "" "sqlite"
      (by decide)).1⟩,
   (healer_bound_and_final_error healEnvC 3 "SELECT x FROM t" "no such table: t" "" "" "sqlite"
      (by decide)).2⟩

/-- CLAIM C7.  For a model response containing no parseable JSON object
(`jpFail` rejects every candidate string), `parse_response` does produce the
best-effort fallback verdict with `confidence = 0` and the raw response text
preserved under the `error` key — but the analysis step then crashes instead
of continuing: the fallback dictionary has no `ambiguities` key, so the
unguarded subscript at analysis_agent.py line 49 raises `KeyError`, which
propagates out of `get_analysis` and aborts the pipeline run. -/
theorem parse_fallback_then_keyerror :
    parse_response jpFail "I cannot answer that." =
      fallbackDict "I cannot answer that." "Expecting value: line 1 column 1 (char 0)" ∧
    pyLookup (parse_response jpFail "I cannot answer that.") "confidence" =
      some (PyVal.int 0) ∧
    pyLookup (parse_response jpFail "I cannot answer that.") "error" =
      some (PyVal.str "I cannot answer that.") ∧
    get_analysis_post (parse_response jpFail "I cannot answer that.") =
      Except.error "KeyError: ambiguities" :=
  ⟨rfl, rfl, rfl, rfl⟩

/-- CLAIM C1.  The orchestrator's healing branch (text2sql.py lines 450–491)
calls `HealerAgent().heal_query(...)`, but `HealerAgent` defines no `heal_query`
method (healer_agent.py lines 18–328 define only the methods listed in
`healerAgentMethods`), so every execution failure raises `AttributeError`
inside the exception handler; the outer handler then emits the generic error
event.  Consequently, in a run whose SQL execution fails (`envExecFail`), the
healer never returns a repaired statement: no `healing_attempt` or
`healing_success` event is ever emitted and the stream ends with the sanitized
execution-error event. -/
theorem healer_invocation_broken :
    "heal_query" ∉ healerAgentMethods ∧
    (generate Option.none "g1" ["list users"] envExecFail).events.map Event.type =
      ["reasoning_step", "sql_query", "reasoning_step", "reasoning_step", "error"] ∧
    "healing_attempt" ∉ (generate Option.none "g1" ["list users"] envExecFail).events.map
      Event.type ∧
    "healing_success" ∉ (generate Option.none "g1" ["list users"] envExecFail).events.map
      Event.type ∧
    (generate Option.none "g1" ["list users"] envExecFail).events.getLast?.map
      Event.final_response = some (some true) :=
  ⟨by decide, rfl, by decide, by decide, rfl⟩

/-- CLAIM C2.  The main pipeline hard-denies destructive statements on
demo-prefixed graphs (text2sql.py lines 425–431), but the confirmation
endpoint `execute_destructive_operation` (lines 665–855) never consults the
demo prefix: called directly for the demo graph `general_demo` with reply
`CONFIRM` and the destructive statement `DROP TABLE users`, it executes the
statement against the live database and streams `query_result`/`ai_response`
with no policy denial — contradicting the claimed hard deny.  The first
conjunct shows the graph id is demo-prefixed; the second evaluates the main
pipeline's denial on the same graph; the third evaluates the confirmation
endpoint, whose execution trace contains the destructive statement. -/
theorem demo_confirmation_executes :
    generalGraph (some "general_") "general_demo" = true ∧
    (generate (some "general_") "general_demo" ["drop it"]
        { envExecFail with analysis := ⟨true, "DROP TABLE users", 90, "", "", "ok"⟩ }
      ).events.map Event.type = ["reasoning_step", "sql_query", "error"] ∧
    (execute_destructive_operation (some "general_") "u1" "general_demo"
        ⟨"DROP TABLE users", "CONFIRM", ["drop it"]⟩ confirmEnvC).map
      (fun o => (o.execTrace, o.events.map Event.type)) =
      Except.ok (["DROP TABLE users"],
        ["reasoning_step", "query_result", "reasoning_step", "schema_refresh",
         "reasoning_step", "ai_response"]) :=
  ⟨rfl, rfl, rfl⟩

/-- CLAIM C3 (counterexample).  The claim states that the confirmed statement
is executed only when the user's reply text is exactly `"CONFIRM"` and that
any other reply text results in a cancellation with zero execution side
effects.  The reply `"confirm"` is not exactly `"CONFIRM"`, yet the endpoint
normalizes it with `strip().upper()` (text2sql.py line 677) and executes the
statement: the execution trace is non-empty and no cancellation event is
emitted. -/
theorem lowercase_confirm_executes :
    (execute_destructive_operation Option.none "u1" "g1"
        ⟨"DROP TABLE t", "confirm", []⟩ confirmEnvC).map
      (fun o => (o.execTrace, o.events.map Event.type)) =
      Except.ok (["DROP TABLE t"],
        ["reasoning_step", "query_result", "reasoning_step", "schema_refresh",
         "reasoning_step", "ai_response"]) :=
  rfl

/-- CLAIM C3 (amended).  For every SQL statement whose first keyword is
destructive, the main pipeline on a non-demo graph emits the
`destructive_confirmation` event as its last event and stops without executing
anything (empty execution trace, no event carrying `final_response = true`);
in the subsequent confirmation call the statement is executed only when the
user's reply, normalized by `strip().upper()`, equals `"CONFIRM"` (so
`"confirm"` and `" CONFIRM "` also execute), and any reply whose normalization
differs from `"CONFIRM"` yields only the cancellation event with zero
execution side effects. -/
theorem destructive_gate (demoPfx : Option String) (graph_id : String)
    (qs : List String) (env : PipelineEnv) (dbt st : String)
    (hdb : get_database_type_and_loader env.dbUrl = some dbt)
    (hrel : env.relevancyStatus = "On-topic")
    (htr : env.analysis.is_sql_translatable = true)
    (htok : sqlTypeOf (if (env.autoQuote env.analysis.sql_query).2 then
        (env.autoQuote env.analysis.sql_query).1 else env.analysis.sql_query) = some st)
    (hdest : destructiveOps.contains st = true)
    (hgen : generalGraph demoPfx graph_id = false)
    (user_id graph_id2 : String) (cd : ConfirmReq) (cenv : ConfirmEnv)
    (hg : ∃ nm, graph_name demoPfx user_id graph_id2 = Except.ok nm)
    (hsql : cd.sql_query ≠ "")
    (hconf : pyUpper (pyStrip cd.confirmation) ≠ "CONFIRM") :
    ((generate demoPfx graph_id qs env).execTrace = [] ∧
     (generate demoPfx graph_id qs env).events.getLast?.map Event.type =
       some "destructive_confirmation" ∧
     ∀ e ∈ (generate demoPfx graph_id qs env).events, e.final_response = some false) ∧
    execute_destructive_operation demoPfx user_id graph_id2 cd cenv =
      Except.ok ⟨[{ type := "operation_cancelled",
                    message := "Operation cancelled. The destructive SQL query was not executed." }],
                 [], false⟩ := by
  constructor
  · simp only [generate, hdb]
    rw [hrel]
    simp only [ne_eq, not_true_eq_false, if_false, htr, if_true]
    rw [htok]
    dsimp only
    simp only [hdest, hgen, Bool.not_false, Bool.and_true, if_true]
    refine ⟨by simp, by simp, ?_⟩
    intro e he
    simp only [stepEv, List.mem_cons, List.not_mem_nil, or_false] at he
    rcases he with rfl | rfl | rfl <;> rfl
  · rcases hg with ⟨nm, hnm⟩
    simp only [execute_destructive_operation, hnm]
    rw [if_neg hsql]
    simp only [generate_confirmation, if_neg hconf]

/-- CLAIM C3 (witness): the destructive-gate theorem applied to a concrete
`DELETE FROM t` run and a concrete `"no"` reply. -/
theorem destructive_gate_witness :
    (destructiveOps.contains "DELETE" = true ∧
     pyUpper (pyStrip "no") ≠ "CONFIRM") ∧
    (((generate Option.none "g1" ["delete it"] envDestructive).execTrace = [] ∧
      (generate Option.none "g1" ["delete it"] envDestructive).events.getLast?.map Event.type =
        some "destructive_confirmation" ∧
      ∀ e ∈ (generate Option.none "g1" ["delete it"] envDestructive).events,
        e.final_response = some false) ∧
     execute_destructive_operation Option.none "u1" "g1"
         ⟨"DROP TABLE t", "no", []⟩ confirmEnvC =
       Except.ok ⟨[{ type := "operation_cancelled",
                     message := "Operation cancelled. The destructive SQL query was not executed." }],
                  [], false⟩) :=
  ⟨⟨by decide, by decide⟩,
   destructive_gate Option.none "g1" ["delete it"] envDestructive "postgresql" "DELETE"
     rfl rfl rfl (by decide) (by decide) rfl
     "u1" "g1" ⟨"DROP TABLE t", "no", []⟩ confirmEnvC
     ⟨"u1_g1", rfl⟩ (by decide) (by decide)⟩

/-- The success tail of the execution phase always ends with the terminal
`ai_response` event. -/
theorem successTail_getLast? (rows : List String) (m : Bool) (op : String)
    (rr : Bool × String) (f : String) (pre : List Event) :
    (pre ++ successTail rows m op rr f).getLast? =
      some { type := "ai_response", final_response := some true, message := f } := by
  unfold successTail
  rw [← List.append_assoc]
  exact List.getLast?_concat _

/-- CLAIM C8 (counterexample).  The claim states that every main-pipeline run
either ends with an event carrying `final_response = true` or halts pending
confirmation after a `destructive_confirmation` event.  A run whose verdict is
translatable with the non-empty all-whitespace statement `" "` passes the
line-365 guard, but `strip().split()[0]` raises `IndexError`, so the stream is
truncated right after the `sql_query` event: the last emitted event is not a
`destructive_confirmation` and carries `final_response = false`. -/
theorem stream_truncated_on_whitespace_sql :
    (generate Option.none "g1" ["q"] envWhitespaceSql).aborted = true ∧
    (generate Option.none "g1" ["q"] envWhitespaceSql).events.map Event.type =
      ["reasoning_step", "sql_query"] ∧
    (generate Option.none "g1" ["q"] envWhitespaceSql).events.getLast?.map
      Event.final_response = some (some false) :=
  ⟨rfl, rfl, rfl⟩

/-- CLAIM C8 (amended).  For every main-pipeline run that is not aborted by an
uncaught exception in the pipeline body (the only such abort, with well-typed
collaborator results, is the `IndexError` of the first-keyword extraction on a
non-empty all-whitespace translatable statement), the emitted event stream is
non-empty and either its last event carries `final_response = true`, or the
run halts pending destructive-operation confirmation: the stream ends with
the `destructive_confirmation` event and no emitted event carries
`final_response = true`. -/
theorem stream_final_event (demoPfx : Option String) (graph_id : String)
    (qs : List String) (env : PipelineEnv)
    (h : (generate demoPfx graph_id qs env).aborted = false) :
    (generate demoPfx graph_id qs env).events ≠ [] ∧
    ((generate demoPfx graph_id qs env).events.getLast?.map Event.final_response =
        some (some true) ∨
     ((generate demoPfx graph_id qs env).events.getLast?.map Event.type =
        some "destructive_confirmation" ∧
      ∀ e ∈ (generate demoPfx graph_id qs env).events, e.final_response = some false)) := by
  rcases hdb : get_database_type_and_loader env.dbUrl with _ | dbt
  · refine ⟨by simp [generate, hdb], Or.inl ?_⟩
    simp [generate, hdb]
  · by_cases hrel : env.relevancyStatus = "On-topic"
    · by_cases htr : env.analysis.is_sql_translatable = true
      · rcases htok : sqlTypeOf (if (env.autoQuote env.analysis.sql_query).2 then
            (env.autoQuote env.analysis.sql_query).1 else env.analysis.sql_query)
          with _ | st
        · exfalso
          rw [generate, hdb] at h
          simp only [hrel, ne_eq, not_true_eq_false, if_false, htr, if_true] at h
          rw [htok] at h
          simp at h
        · by_cases hd : destructiveOps.contains st = true
          · have hdm : st ∈ destructiveOps := by simpa using hd
            by_cases hg : generalGraph demoPfx graph_id = true
            · -- destructive on a demo graph: terminal denial error event
              refine ⟨?_, Or.inl ?_⟩ <;>
                · rw [generate, hdb]
                  simp only [hrel, ne_eq, not_true_eq_false, if_false, htr, if_true]
                  rw [htok]
                  simp [hd, hdm, hg]
            · -- destructive on a normal graph: confirmation halt
              have hgf : generalGraph demoPfx graph_id = false := by
                revert hg; cases generalGraph demoPfx graph_id <;> simp
              refine ⟨?_, Or.inr ⟨?_, ?_⟩⟩
              · rw [generate, hdb]
                simp only [hrel, ne_eq, not_true_eq_false, if_false, htr, if_true]
                rw [htok]
                simp [hd, hdm, hgf]
              · rw [generate, hdb]
                simp only [hrel, ne_eq, not_true_eq_false, if_false, htr, if_true]
                rw [htok]
                simp [hd, hdm, hgf]
              · intro e he
                rw [generate, hdb] at he
                simp only [hrel, ne_eq, not_true_eq_false, if_false, htr, if_true] at he
                rw [htok] at he
                simp only [hd, hgf, Bool.not_false, Bool.and_true, if_true, stepEv,
                  List.mem_cons, List.not_mem_nil, or_false] at he
                rcases he with rfl | rfl | rfl <;> rfl
          · -- non-destructive: execution phase
            have hdf : destructiveOps.contains st = false := by
              revert hd; cases destructiveOps.contains st <;> simp
            have hdmf : st ∉ destructiveOps := by simpa using hdf
            set sqlq := (if (env.autoQuote env.analysis.sql_query).2 then
              (env.autoQuote env.analysis.sql_query).1 else env.analysis.sql_query) with hsqlq
            have hred : generate demoPfx graph_id qs env =
                execPhase env qs dbt sqlq
                  [stepEv "Step 1: Analyzing user query and generating SQL...",
                   { type := "sql_query", final_response := some false,
                     data := env.analysis.sql_query, conf := env.analysis.confidence,
                     miss := env.analysis.missing_information, amb := env.analysis.ambiguities,
                     exp := env.analysis.explanation,
                     is_valid := env.analysis.is_sql_translatable }] := by
              rw [generate, hdb]
              simp only [hrel, ne_eq, not_true_eq_false, if_false, htr, if_true]
              rw [htok]
              simp [hdf, hdmf]
            rw [hred]
            rw [execPhase]
            rcases hexec : env.execSql sqlq with err | rows
            · dsimp only
              rcases hhq : env.healQuery with _ | heal
              · dsimp only
                refine ⟨by simp, Or.inl (by rfl)⟩
              · dsimp only
                rcases hhf : (heal sqlq err (pyTake env.dbDescription 500) (lastQ qs)
                    dbt).healing_failed with _ | _
                · simp only [Bool.false_eq_true, if_false]
                  rcases hexec2 : env.execSql (heal sqlq err (pyTake env.dbDescription 500)
                      (lastQ qs) dbt).sql_query with err2 | rows2
                  · dsimp only
                    refine ⟨by simp, Or.inl (by rfl)⟩
                  · dsimp only
                    refine ⟨by simp [successTail], Or.inl ?_⟩
                    rw [successTail_getLast?]
                    rfl
                · simp only [if_true]
                  refine ⟨by simp, Or.inl (by rfl)⟩
            · dsimp only
              refine ⟨by simp [successTail], Or.inl ?_⟩
              rw [successTail_getLast?]
              rfl
      · -- verdict not translatable: terminal follow-up event
        have htf : env.analysis.is_sql_translatable = false := by
          revert htr; cases env.analysis.is_sql_translatable <;> simp
        refine ⟨?_, Or.inl ?_⟩ <;>
          · rw [generate, hdb]
            simp [hrel, htf]
    · -- off-topic: terminal follow-up event
      refine ⟨?_, Or.inl ?_⟩ <;>
        · rw [generate, hdb]
          simp [hrel]

/-- CLAIM C8 (witness): a non-aborted run (the execution-failure run
`envExecFail`) satisfies the stream-termination property. -/
theorem stream_final_event_witness :
    (generate Option.none "g1" ["list users"] envExecFail).aborted = false ∧
    ((generate Option.none "g1" ["list users"] envExecFail).events ≠ [] ∧
     ((generate Option.none "g1" ["list users"] envExecFail).events.getLast?.map
          Event.final_response = some (some true) ∨
      ((generate Option.none "g1" ["list users"] envExecFail).events.getLast?.map Event.type =
          some "destructive_confirmation" ∧
       ∀ e ∈ (generate Option.none "g1" ["list users"] envExecFail).events,
         e.final_response = some false))) :=
  ⟨rfl, stream_final_event Option.none "g1" ["list users"] envExecFail rfl⟩

/-- The success tail contains a `query_result` event exactly when the result
list is non-empty. -/
theorem query_result_mem_successTail (rows : List String) (m : Bool) (op : String)
    (rr : Bool × String) (f : String) :
    ("query_result" ∈ (successTail rows m op rr f).map Event.type) ↔ rows ≠ [] := by
  rcases rows with _ | ⟨r, rs⟩ <;>
    cases m <;>
      rcases hrr : rr.1 with _ | _ <;>
        simp [successTail, stepEv, hrr]

/-- CLAIM C10.  In the main pipeline, a `query_result` event is emitted if and
only if the executed SQL returned a non-empty result list (text2sql.py line
492 guards the event on `len(query_results) != 0`); the confirmation flow
instead emits a `query_result` event unconditionally after a successful
execution, even for an empty result list (text2sql.py lines 747–753). -/
theorem query_result_emission (demoPfx : Option String) (graph_id : String)
    (qs : List String) (env : PipelineEnv) (dbt st : String) (rows : List String)
    (hdb : get_database_type_and_loader env.dbUrl = some dbt)
    (hrel : env.relevancyStatus = "On-topic")
    (htr : env.analysis.is_sql_translatable = true)
    (htok : sqlTypeOf (if (env.autoQuote env.analysis.sql_query).2 then
        (env.autoQuote env.analysis.sql_query).1 else env.analysis.sql_query) = some st)
    (hdf : destructiveOps.contains st = false)
    (hexec : env.execSql (if (env.autoQuote env.analysis.sql_query).2 then
        (env.autoQuote env.analysis.sql_query).1 else env.analysis.sql_query) =
      Except.ok rows)
    (cenv : ConfirmEnv) (csql cdbt : String) (crows : List String)
    (hcdb : get_database_type_and_loader cenv.dbUrl = some cdbt)
    (hcsql : csql ≠ "")
    (hcexec : cenv.execSql (if (cenv.autoQuote csql).2 then (cenv.autoQuote csql).1
        else csql) = Except.ok crows) :
    (("query_result" ∈ (generate demoPfx graph_id qs env).events.map Event.type) ↔
      rows ≠ []) ∧
    "query_result" ∈ (generate_confirmation "CONFIRM" csql cenv).events.map Event.type := by
  constructor
  · have hdmf : st ∉ destructiveOps := by simpa using hdf
    set sqlq := (if (env.autoQuote env.analysis.sql_query).2 then
      (env.autoQuote env.analysis.sql_query).1 else env.analysis.sql_query) with hsqlq
    have hred : generate demoPfx graph_id qs env =
        execPhase env qs dbt sqlq
          [stepEv "Step 1: Analyzing user query and generating SQL...",
           { type := "sql_query", final_response := some false,
             data := env.analysis.sql_query, conf := env.analysis.confidence,
             miss := env.analysis.missing_information, amb := env.analysis.ambiguities,
             exp := env.analysis.explanation,
             is_valid := env.analysis.is_sql_translatable }] := by
      rw [generate, hdb]
      simp only [hrel, ne_eq, not_true_eq_false, if_false, htr, if_true]
      rw [htok]
      simp [hdf, hdmf]
    rw [hred]
    rw [execPhase]
    rw [hexec]
    dsimp only
    rw [List.map_append, List.mem_append, query_result_mem_successTail]
    simp [stepEv]
  · rw [generate_confirmation]
    simp only [if_pos rfl, hcdb]
    rw [if_pos hcsql]
    rw [hcexec]
    simp

/-- CLAIM C10 (witness): with an empty result list, the main pipeline emits no
`query_result` event while the confirmation flow does. -/
theorem query_result_emission_witness :
    ((("query_result" ∈ (generate Option.none "g1" ["q"] envEmptyResult).events.map Event.type) ↔
        ([] : List String) ≠ []) ∧
     "query_result" ∈
       (generate_confirmation "CONFIRM" "SELECT 1" confirmEnvC).events.map Event.type) :=
  query_result_emission Option.none "g1" ["q"] envEmptyResult "postgresql" "SELECT" []
    rfl rfl rfl rfl (by decide) rfl
    confirmEnvC "SELECT 1" "postgresql" [] rfl (by decide) rfl

/-- CLAIM C5 (counterexample).  The claim states that the column-stub vector
search's results are merged into the returned table list.  In `findEnvC` there
are no table stubs and one column stub: the column search runs (it is the only
main task) and finds the `orders` table, yet `find` returns the empty list —
the unpacking at graph.py lines 346–347 reads the column-search result from
`results[1]` only when both stub lists are non-empty, so here the result
(sitting in `results[0]`) is discarded; the sphere/connector searches are not
run either, although a table was found by a step-3 vector search. -/
theorem column_results_discarded :
    (find findEnvC).trace.columnSearchRan = true ∧
    findEnvC.columnSearch [1] = [⟨"orders", "orders table", "[]", []⟩] ∧
    (find findEnvC).result = [] ∧
    (find findEnvC).trace.sphereRan = false ∧
    (find findEnvC).trace.connectorRan = false :=
  ⟨rfl, rfl, rfl, rfl, rfl⟩

/-- CLAIM C5 (amended).  Provided the embedding provider returns one vector
per input text, in every invocation of `find`:
the column-stub vector search runs exactly when the column-stub list is
non-empty, and the table-stub search exactly when the table-stub list is
non-empty; when the table-stub list is empty the combined result is empty
(the column search's findings are discarded, not merged) and neither the
sphere nor the connector search runs; the sphere and connector searches are
seeded with exactly the table names discovered by the table-stub vector
search (never with names from the column search) and run exactly when that
seed list is non-empty; and only when the table-stub list is non-empty is
every table found by the column search merged (by name) into the returned
list. -/

theorem find_search_gating (env : FindEnv)
    (hlen : ∀ l, (env.embed l).length = l.length) :
    ((find env).trace.columnSearchRan = true ↔ env.columnsDescs ≠ []) ∧
    ((find env).trace.tableSearchRan = true ↔ env.tablesDescs ≠ []) ∧
    (env.tablesDescs = [] → (find env).result = [] ∧
      (find env).trace.sphereRan = false ∧ (find env).trace.connectorRan = false) ∧
    ((find env).trace.sphereSeeds =
      (if env.tablesDescs ≠ [] then
        (findTablesByEmb env ((env.embed (env.tablesDescs ++ env.columnsDescs)).take
          env.tablesDescs.length)).map FRow.name
       else []) ∧
     ((find env).trace.sphereRan = true ↔ (find env).trace.sphereSeeds ≠ []) ∧
     (find env).trace.connectorRan = (find env).trace.sphereRan) ∧
    (env.tablesDescs ≠ [] →
      ∀ r ∈ findTablesByColumns env ((env.embed (env.tablesDescs ++ env.columnsDescs)).drop
          env.tablesDescs.length),
        r.name ∈ (find env).result.map FRow.name) := by
  by_cases hT : env.tablesDescs = []
  · by_cases hC : env.columnsDescs = []
    · simp [find, hT, hC]
    · have hne : ¬ (env.tablesDescs ++ env.columnsDescs = []) := by simp [hT, hC]
      have hcol : ¬ ((env.embed (env.tablesDescs ++ env.columnsDescs)).drop
          env.tablesDescs.length = []) := by
        rw [List.drop_eq_nil_iff, hlen, List.length_append]
        intro hle
        have : env.columnsDescs.length = 0 := by omega
        exact hC (List.length_eq_zero.mp this)
      have htab : (env.embed (env.tablesDescs ++ env.columnsDescs)).take
          env.tablesDescs.length = [] := by
        rw [List.take_eq_nil_iff]
        exact Or.inl (by rw [hT]; rfl)
      have hcol2 : ¬ (env.embed env.columnsDescs = []) := by
        intro h
        have h2 := hlen env.columnsDescs
        rw [h] at h2
        exact hC (List.length_eq_zero.mp (by simpa using h2.symm))
      simp [find, hne, hcol, htab, hT, hC, hcol2, get_unique_tables, uniqueGo]
  · have hne : ¬ (env.tablesDescs ++ env.columnsDescs = []) := by simp [hT]
    have htab : ¬ ((env.embed (env.tablesDescs ++ env.columnsDescs)).take
        env.tablesDescs.length = []) := by
      rw [List.take_eq_nil_iff]
      rintro (h0 | hemb)
      · exact hT (List.length_eq_zero.mp h0)
      · have h0 := hlen (env.tablesDescs ++ env.columnsDescs)
        rw [hemb, List.length_append] at h0
        simp only [List.length_nil] at h0
        exact hT (List.length_eq_zero.mp (by omega))
    by_cases hC : env.columnsDescs = []
    · have happ : env.tablesDescs ++ env.columnsDescs = env.tablesDescs := by
        rw [hC, List.append_nil]
      have htab2 : ¬ ((env.embed env.tablesDescs).take env.tablesDescs.length = []) := by
        have h2 := htab
        rw [happ] at h2
        exact h2
      have hdrop2 : (env.embed env.tablesDescs).drop env.tablesDescs.length = [] := by
        rw [List.drop_eq_nil_iff, hlen]
      simp [find, hne, htab2, hdrop2, happ, hT, hC, findTablesByColumns]
    · have hcol : ¬ ((env.embed (env.tablesDescs ++ env.columnsDescs)).drop
          env.tablesDescs.length = []) := by
        rw [List.drop_eq_nil_iff, hlen, List.length_append]
        intro hle
        have : env.columnsDescs.length = 0 := by omega
        exact hC (List.length_eq_zero.mp this)
      refine ⟨?_, ?_, ?_, ?_, ?_⟩
      · simp [find, hne, htab, hcol, hC]
      · simp [find, hne, htab, hcol, hT]
      · intro h; exact absurd h hT
      · simp [find, hne, htab, hcol, hT]
      · intro _ r hr
        have hres : (find env).result = get_unique_tables
            (findTablesByEmb env ((env.embed (env.tablesDescs ++ env.columnsDescs)).take
                env.tablesDescs.length) ++
             (findTablesByColumns env ((env.embed (env.tablesDescs ++ env.columnsDescs)).drop
                env.tablesDescs.length) ++
              ((if findTablesByEmb env ((env.embed (env.tablesDescs ++ env.columnsDescs)).take
                    env.tablesDescs.length) = [] then []
                else findConnectingTables env ((findTablesByEmb env ((env.embed (env.tablesDescs ++
                  env.columnsDescs)).take env.tablesDescs.length)).map FRow.name)) ++
               (if findTablesByEmb env ((env.embed (env.tablesDescs ++ env.columnsDescs)).take
                    env.tablesDescs.length) = [] then []
                else findTablesSphere env ((findTablesByEmb env ((env.embed (env.tablesDescs ++
                  env.columnsDescs)).take env.tablesDescs.length)).map FRow.name))))) := by
          simp [find, hne, htab, hcol]
        rw [hres]
        have hmem : r ∈ (findTablesByEmb env ((env.embed (env.tablesDescs ++
              env.columnsDescs)).take env.tablesDescs.length) ++
             (findTablesByColumns env ((env.embed (env.tablesDescs ++ env.columnsDescs)).drop
                env.tablesDescs.length) ++
              ((if findTablesByEmb env ((env.embed (env.tablesDescs ++ env.columnsDescs)).take
                    env.tablesDescs.length) = [] then []
                else findConnectingTables env ((findTablesByEmb env ((env.embed (env.tablesDescs ++
                  env.columnsDescs)).take env.tablesDescs.length)).map FRow.name)) ++
               (if findTablesByEmb env ((env.embed (env.tablesDescs ++ env.columnsDescs)).take
                    env.tablesDescs.length) = [] then []
                else findTablesSphere env ((findTablesByEmb env ((env.embed (env.tablesDescs ++
                  env.columnsDescs)).take env.tablesDescs.length)).map FRow.name))))) := by
          simp only [List.mem_append]
          exact Or.inr (Or.inl hr)
        exact mem_names_uniqueGo _ [] r hmem (by simp)

/-- CLAIM C5 (witness): the gating theorem applied to the concrete retrieval
environment `findEnvBoth`, whose embedding oracle returns one vector per
text. -/
theorem find_search_gating_witness :
    (∀ l, (findEnvBoth.embed l).length = l.length) ∧
    (((find findEnvBoth).trace.columnSearchRan = true ↔ findEnvBoth.columnsDescs ≠ []) ∧
     ((find findEnvBoth).trace.tableSearchRan = true ↔ findEnvBoth.tablesDescs ≠ []) ∧
     (findEnvBoth.tablesDescs = [] → (find findEnvBoth).result = [] ∧
       (find findEnvBoth).trace.sphereRan = false ∧
       (find findEnvBoth).trace.connectorRan = false) ∧
     ((find findEnvBoth).trace.sphereSeeds =
       (if findEnvBoth.tablesDescs ≠ [] then
         (findTablesByEmb findEnvBoth ((findEnvBoth.embed (findEnvBoth.tablesDescs ++
           findEnvBoth.columnsDescs)).take findEnvBoth.tablesDescs.length)).map FRow.name
        else []) ∧
      ((find findEnvBoth).trace.sphereRan = true ↔ (find findEnvBoth).trace.sphereSeeds ≠ []) ∧
      (find findEnvBoth).trace.connectorRan = (find findEnvBoth).trace.sphereRan) ∧
     (findEnvBoth.tablesDescs ≠ [] →
       ∀ r ∈ findTablesByColumns findEnvBoth ((findEnvBoth.embed (findEnvBoth.tablesDescs ++
           findEnvBoth.columnsDescs)).drop findEnvBoth.tablesDescs.length),
         r.name ∈ (find findEnvBoth).result.map FRow.name)) :=
  ⟨fun l => by simp [findEnvBoth],
   find_search_gating findEnvBoth (fun l => by simp [findEnvBoth])⟩
